import Mathlib

/-!
Shallow embedding of src/scripts/zabbix_whatsapp_sender.py.

The script is a one-shot CLI that sends a text alert through a WhatsApp
HTTP API and, optionally, fetches a Zabbix chart image and sends it as a
follow-up media message.  The embedding models the network world as data
(the responses the external servers would give) and records every network
request the program issues as an event in a trace, so that ordering and
payload-shape properties can be stated.  Request timeout and TLS
verification flags are passed through to the HTTP layer unchanged by the
script and have no observable effect on the modelled behaviour, so they
are not carried in the state.
-/

namespace ZabbixWhatsappSender

/-- Python truthiness of an `Optional[str]` value: `None` and the empty
string are falsy, every other string is truthy. -/
def pyTruthy : Option String → Bool
  | none => false
  | some s => decide (s ≠ "")

/-- Python `a or b` for `a : Optional[str]` and `b : str`. -/
def pyOrStr (a : Option String) (b : String) : String :=
  match a with
  | none => b
  | some s => if s ≠ "" then s else b

/-- Python `s.rstrip("/")`: remove all trailing slash characters. -/
def rstripSlash (s : String) : String :=
  String.mk ((s.data.reverse.dropWhile (fun c => c = '/')).reverse)

/-- Python slice `s[:n]`: the first `n` characters of `s`. -/
def strTake (s : String) (n : Nat) : String :=
  String.mk (s.data.take n)

/-- Primitive JSON values appearing in the script's payloads. -/
inductive JPrim where
  | str : String → JPrim
  | nat : Nat → JPrim
  | null : JPrim
  deriving DecidableEq

/-- A flat JSON object (string keys to primitive values). -/
abbrev JFlat := List (String × JPrim)

/-- A JSON value one level up: a primitive or a flat object. -/
inductive JVal where
  | prim : JPrim → JVal
  | obj : JFlat → JVal
  deriving DecidableEq

/-- A top-level JSON object as assembled by the script. -/
abbrev JObj := List (String × JVal)

/-- Serialisation of an `Optional[str]` into a JSON primitive
(`None` becomes JSON null). -/
def optPrim : Option String → JPrim
  | none => JPrim.null
  | some s => JPrim.str s

/-- The standard base64 alphabet. -/
def b64Alphabet : List Char :=
  "ABCDEFGHIJKLMNOPQRSTUVWXYZabcdefghijklmnopqrstuvwxyz0123456789+/".data

/-- The base64 character for a 6-bit group. -/
def encodeChar (n : Nat) : Char :=
  b64Alphabet.getD n 'A'

/-- The 6-bit group denoted by a base64 character, if any. -/
def decodeChar (c : Char) : Option Nat :=
  b64Alphabet.findIdx? (fun x => x = c)

/-- Standard base64 encoding of a byte list, with `=` padding, exactly as
`base64.b64encode` produces. -/
def b64Encode : List Nat → List Char
  | a :: b :: c :: rest =>
    encodeChar (a / 4) :: encodeChar (a % 4 * 16 + b / 16) ::
      encodeChar (b % 16 * 4 + c / 64) :: encodeChar (c % 64) :: b64Encode rest
  | [a, b] =>
    [encodeChar (a / 4), encodeChar (a % 4 * 16 + b / 16), encodeChar (b % 16 * 4), '=']
  | [a] =>
    [encodeChar (a / 4), encodeChar (a % 4 * 16), '=', '=']
  | [] => []

/-- Decoding of one full (unpadded) base64 chunk into three bytes. -/
def b64DecChunk (c1 c2 c3 c4 : Char) : Option (List Nat) :=
  match decodeChar c1, decodeChar c2, decodeChar c3, decodeChar c4 with
  | some s1, some s2, some s3, some s4 =>
    some [s1 * 4 + s2 / 16, s2 % 16 * 16 + s3 / 4, s3 % 4 * 64 + s4]
  | _, _, _, _ => none

/-- Standard base64 decoding, the inverse of `b64Encode`. -/
def b64Decode : List Char → Option (List Nat)
  | [] => some []
  | c1 :: c2 :: c3 :: c4 :: rest =>
    if c4 = '=' then
      if rest ≠ [] then none
      else if c3 = '=' then
        match decodeChar c1, decodeChar c2 with
        | some s1, some s2 => some [s1 * 4 + s2 / 16]
        | _, _ => none
      else
        match decodeChar c1, decodeChar c2, decodeChar c3 with
        | some s1, some s2, some s3 =>
          some [s1 * 4 + s2 / 16, s2 % 16 * 16 + s3 / 4]
        | _, _, _ => none
    else
      match b64DecChunk c1 c2 c3 c4, b64Decode rest with
      | some bs, some rest2 => some (bs ++ rest2)
      | _, _ => none
  | _ => none

/-- A response of the WhatsApp API as seen by the script: HTTP status,
raw body text, and the result of parsing the body as JSON (`none` means
`response.json()` would raise). -/
structure HttpResp where
  status : Nat
  text : String
  jsonBody : Option JVal
  deriving DecidableEq

/-- The parsed JSON body of the Zabbix login response.  The script reads
an optional `error` field and, failing that, the `result` field, which
per the declared return type of `_api_login` is the session token
string. -/
structure LoginBody where
  error : Option JPrim
  result : Option String
  deriving DecidableEq

/-- The response of the Zabbix chart endpoint: HTTP status, body text,
raw content bytes, and the optional Content-Type header. -/
structure ChartResp where
  status : Nat
  text : String
  content : List Nat
  contentType : Option String
  deriving DecidableEq

/-- What the Zabbix server answers: the parsed login body (`none` means
`resp.json()` would raise) and the chart response. -/
structure ZWorld where
  loginBody : Option LoginBody
  chart : ChartResp
  deriving DecidableEq

/-- What all external servers answer during one invocation. -/
structure World where
  sendResp : HttpResp
  mediaResp : HttpResp
  zbx : ZWorld
  deriving DecidableEq

/-- The exceptions the script can raise (RuntimeError variants carry the
data interpolated into their message, plus the library errors that
`response.json()` and `data["result"]` can produce). -/
inductive PyErr where
  | httpError (endpoint : String) (status : Nat) (excerpt : String)
  | chartHttpError (status : Nat) (excerpt : String)
  | loginError (err : JPrim)
  | configError (msg : String)
  | jsonDecodeError
  | keyError (k : String)
  deriving DecidableEq

/-- A network request issued by the script, in issue order. -/
inductive Ev where
  | wpost (endpoint url : String) (headers : List (String × String)) (payload : JObj)
  | loginPost (url : String) (payload : JObj)
  | chartGet (url : String) (params : JFlat) (headers : List (String × String))
  deriving DecidableEq

/-- Membership test: the event is the text-send POST. -/
def Ev.isTextPost : Ev → Bool
  | .wpost ep _ _ _ => ep = "/send"
  | _ => false

/-- Membership test: the event is the media-send POST. -/
def Ev.isMediaPost : Ev → Bool
  | .wpost ep _ _ _ => ep = "/send-media"
  | _ => false

/-- Membership test: the event is the Zabbix login POST. -/
def Ev.isLogin : Ev → Bool
  | .loginPost _ _ => true
  | _ => false

/-- Membership test: the event is the Zabbix chart GET. -/
def Ev.isChart : Ev → Bool
  | .chartGet _ _ _ => true
  | _ => false

/-- An event of the media stage of an invocation: a Zabbix login, a
chart download, or the media-send POST. -/
def Ev.isGraphRelated (e : Ev) : Bool :=
  e.isLogin || e.isChart || e.isMediaPost

/-- The messaging client: base URL (trailing slashes stripped) and the
session headers installed at construction. -/
structure WhatsAppAPIClient where
  base_url : String
  headers : List (String × String)
  deriving DecidableEq

/-- WhatsAppAPIClient.__init__: strip trailing slashes from the base URL
and install the X-API-Token header when an API token is given. -/
def mkClient (base_url : String) (api_token : Option String) : WhatsAppAPIClient :=
  { base_url := rstripSlash base_url,
    headers := if pyTruthy api_token then [("X-API-Token", api_token.getD "")] else [] }

/-- The value part of WhatsAppAPIClient._post: raise a RuntimeError
carrying the status and the body truncated to 200 characters when the
status is at least 400, otherwise return the parsed JSON body. -/
def postResult (endpoint : String) (resp : HttpResp) : Except PyErr JVal :=
  if resp.status ≥ 400 then
    .error (.httpError endpoint resp.status (strTake resp.text 200))
  else
    match resp.jsonBody with
    | some j => .ok j
    | none => .error .jsonDecodeError

/-- WhatsAppAPIClient._post: issue the POST (recorded as an event) and
produce the result dictated by the response. -/
def WhatsAppAPIClient.post (c : WhatsAppAPIClient) (endpoint : String) (payload : JObj)
    (resp : HttpResp) : Except PyErr JVal × List Ev :=
  (postResult endpoint resp,
    [Ev.wpost endpoint (c.base_url ++ endpoint)
      (c.headers ++ [("Content-Type", "application/json")]) payload])

/-- The JSON body of send_text: phone and message, with subject added
only when truthy. -/
def sendTextPayload (phone message : String) (subject : Option String) : JObj :=
  [("phone", .prim (.str phone)), ("message", .prim (.str message))] ++
    (if pyTruthy subject then [("subject", JVal.prim (.str (subject.getD "")))] else [])

/-- WhatsAppAPIClient.send_text. -/
def WhatsAppAPIClient.send_text (c : WhatsAppAPIClient) (phone message : String)
    (subject : Option String) (resp : HttpResp) : Except PyErr JVal × List Ev :=
  c.post "/send" (sendTextPayload phone message subject) resp

/-- The JSON body of send_media: phone and media object, with caption
added only when truthy. -/
def sendMediaPayload (phone : String) (media : JFlat) (caption : Option String) : JObj :=
  [("phone", .prim (.str phone)), ("media", .obj media)] ++
    (if pyTruthy caption then [("caption", JVal.prim (.str (caption.getD "")))] else [])

/-- WhatsAppAPIClient.send_media. -/
def WhatsAppAPIClient.send_media (c : WhatsAppAPIClient) (phone : String) (media : JFlat)
    (caption : Option String) (resp : HttpResp) : Except PyErr JVal × List Ev :=
  c.post "/send-media" (sendMediaPayload phone media caption) resp

/-- Does a POST against this response succeed (status below 400 and the
body parses as JSON)? -/
def postOk (resp : HttpResp) : Bool :=
  !decide (resp.status ≥ 400) && resp.jsonBody.isSome

/-- encode_media: base64-encode the bytes and package them with the
mimetype and filename. -/
def encode_media (data : List Nat) (mimetype filename : String) : JFlat :=
  [("data", .str (String.mk (b64Encode data))), ("mimetype", .str mimetype),
    ("filename", .str filename)]

/-- The fetcher state: constructor arguments plus the mutable
`auth_type`, `token` and session-header fields. -/
structure ZabbixGraphFetcher where
  base_url : String
  auth_type : Option String
  token : Option String
  user : Option String
  password : Option String
  headers : List (String × String)
  deriving DecidableEq

/-- ZabbixGraphFetcher.__init__. -/
def mkFetcher (base_url : String) (token user password : Option String) :
    ZabbixGraphFetcher :=
  { base_url := rstripSlash base_url, auth_type := none,
    token := token, user := user, password := password, headers := [] }

/-- The JSON-RPC envelope _api_login posts. -/
def loginPayload (user password : Option String) : JObj :=
  [("jsonrpc", .prim (.str "2.0")), ("method", .prim (.str "user.login")),
    ("params", .obj [("user", optPrim user), ("password", optPrim password)]),
    ("id", .prim (.nat 1))]

/-- ZabbixGraphFetcher._api_login: POST the login envelope; fail when the
body does not parse, carries an error field, or lacks a result; otherwise
return the session token. -/
def ZabbixGraphFetcher.api_login (f : ZabbixGraphFetcher) (w : ZWorld) :
    Except PyErr String × List Ev :=
  let evs := [Ev.loginPost (f.base_url ++ "/api_jsonrpc.php") (loginPayload f.user f.password)]
  match w.loginBody with
  | none => (.error .jsonDecodeError, evs)
  | some body =>
    match body.error with
    | some e => (.error (.loginError e), evs)
    | none =>
      match body.result with
      | some tok => (.ok tok, evs)
      | none => (.error (.keyError "result"), evs)

/-- The RuntimeError message prepare raises when no usable credentials
were supplied. -/
def configMsg : String :=
  "Forneça --zabbix-token ou --zabbix-user/--zabbix-password para baixar o gráfico."

/-- ZabbixGraphFetcher.prepare: bearer mode when a token is truthy,
legacy login when user and password are truthy, configuration error
otherwise. -/
def ZabbixGraphFetcher.prepare (f : ZabbixGraphFetcher) (w : ZWorld) :
    Except PyErr Unit × ZabbixGraphFetcher × List Ev :=
  if pyTruthy f.token then
    (.ok (), { f with
      auth_type := some "bearer",
      headers := f.headers ++ [("Authorization", "Bearer " ++ f.token.getD "")] }, [])
  else if pyTruthy f.user && pyTruthy f.password then
    match f.api_login w with
    | (.ok tok, evs) =>
      (.ok (), { f with auth_type := some "legacy", token := some tok }, evs)
    | (.error e, evs) => (.error e, f, evs)
  else
    (.error (.configError configMsg), f, [])

/-- The arguments of one chart request. -/
structure GraphQuery where
  graph_id : String
  period : Nat
  width : Nat
  height : Nat
  stime : Option String
  deriving DecidableEq

/-- The query parameters of the chart GET: graphid, period, width and
height, then stime when truthy, then the auth token when in legacy mode
with a truthy token. -/
def chartParams (f : ZabbixGraphFetcher) (q : GraphQuery) : JFlat :=
  let base : JFlat := [("graphid", .str q.graph_id), ("period", .nat q.period),
    ("width", .nat q.width), ("height", .nat q.height)]
  let withStime := if pyTruthy q.stime then base ++ [("stime", JPrim.str (q.stime.getD ""))] else base
  if f.auth_type = some "legacy" && pyTruthy f.token then
    withStime ++ [("auth", JPrim.str (f.token.getD ""))]
  else withStime

/-- The value the chart GET produces: fail on status at least 400 with
the truncated body, otherwise the raw bytes paired with the Content-Type
header defaulted to image/png. -/
def chartOutcome (w : ZWorld) : Except PyErr (List Nat × String) :=
  if w.chart.status ≥ 400 then
    .error (.chartHttpError w.chart.status (strTake w.chart.text 200))
  else
    .ok (w.chart.content, w.chart.contentType.getD "image/png")

/-- ZabbixGraphFetcher.fetch_graph: prepare authentication if not yet
done, then issue the chart GET and produce its outcome. -/
def ZabbixGraphFetcher.fetch_graph (f : ZabbixGraphFetcher) (w : ZWorld) (q : GraphQuery) :
    Except PyErr (List Nat × String) × ZabbixGraphFetcher × List Ev :=
  let prep := if pyTruthy f.auth_type then (Except.ok (), f, ([] : List Ev)) else f.prepare w
  match prep with
  | (.error e, f1, evs1) => (.error e, f1, evs1)
  | (.ok _, f1, evs1) =>
    (chartOutcome w, f1,
      evs1 ++ [Ev.chartGet (f1.base_url ++ "/chart2.php") (chartParams f1 q) f1.headers])

/-- Repeated calls of fetch_graph on the same fetcher instance,
threading the instance state through and concatenating the traces. -/
def fetchMany (w : ZWorld) : ZabbixGraphFetcher → List GraphQuery → ZabbixGraphFetcher × List Ev
  | f, [] => (f, [])
  | f, q :: qs =>
    let r := f.fetch_graph w q
    let rest := fetchMany w r.2.1 qs
    (rest.1, r.2.2 ++ rest.2)

/-- The parsed command-line arguments.  Optional flags default to `none`
(argparse None); period, width, height and graph_filename carry the
argparse defaults when not overridden. -/
structure Args where
  phone : String
  message : String
  subject : Option String
  caption : Option String
  api_base_url : String
  api_token : Option String
  graph_id : Option String
  zabbix_url : Option String
  zabbix_token : Option String
  zabbix_user : Option String
  zabbix_password : Option String
  period : Nat
  width : Nat
  height : Nat
  stime : Option String
  graph_filename : String
  deriving DecidableEq

/-- How the process terminates: a return code from main, or
parser.error, which argparse turns into SystemExit with status 2. -/
inductive Outcome where
  | exit : Nat → Outcome
  | usageError : String → Outcome
  deriving DecidableEq

/-- The process exit status of an outcome (argparse exits with 2 on a
usage error). -/
def Outcome.exitCode : Outcome → Nat
  | .exit c => c
  | .usageError _ => 2

/-- The parser.error message for --graph-id without --zabbix-url. -/
def usageMsg : String :=
  "--zabbix-url é obrigatório quando --graph-id for utilizado"

/-- The GraphQuery main passes to fetch_graph. -/
def queryOf (args : Args) : GraphQuery :=
  { graph_id := args.graph_id.getD "", period := args.period, width := args.width,
    height := args.height, stime := args.stime }

/-- The ZabbixGraphFetcher main constructs. -/
def mkFetcherOf (args : Args) : ZabbixGraphFetcher :=
  mkFetcher (args.zabbix_url.getD "") args.zabbix_token args.zabbix_user args.zabbix_password

/-- main: send the text message (exit 2 on failure); then, when a graph
id was given, require --zabbix-url (parser.error otherwise), fetch the
chart, encode it and send it as media with the caption defaulting to the
message (exit 3 on any failure in that stage); exit 0 otherwise. -/
def main (args : Args) (w : World) : Outcome × List Ev :=
  let client := mkClient args.api_base_url args.api_token
  let sent := client.send_text args.phone args.message args.subject w.sendResp
  match sent with
  | (.error _, evsT) => (.exit 2, evsT)
  | (.ok _, evsT) =>
    if pyTruthy args.graph_id then
      if !pyTruthy args.zabbix_url then
        (.usageError usageMsg, evsT)
      else
        match (mkFetcherOf args).fetch_graph w.zbx (queryOf args) with
        | (.error _, _, evsG) => (.exit 3, evsT ++ evsG)
        | (.ok (data, mimetype), _, evsG) =>
          let media := encode_media data mimetype args.graph_filename
          let caption := pyOrStr args.caption args.message
          match client.send_media args.phone media (some caption) w.mediaResp with
          | (.error _, evsM) => (.exit 3, evsT ++ evsG ++ evsM)
          | (.ok _, evsM) => (.exit 0, evsT ++ evsG ++ evsM)
    else (.exit 0, evsT)

/-- Does the graph stage of main succeed against this world: the fetch
succeeds and the media POST succeeds? -/
def graphStageOk (args : Args) (w : World) : Bool :=
  match ((mkFetcherOf args).fetch_graph w.zbx (queryOf args)).1 with
  | .error _ => false
  | .ok _ => postOk w.mediaResp

/-- The fetcher state after a successful bearer prepare. -/
def bearerSt (f : ZabbixGraphFetcher) : ZabbixGraphFetcher :=
  { f with
    auth_type := some "bearer",
    headers := f.headers ++ [("Authorization", "Bearer " ++ f.token.getD "")] }

/-- The fetcher state after a successful legacy login. -/
def legacySt (f : ZabbixGraphFetcher) (tok : String) : ZabbixGraphFetcher :=
  { f with auth_type := some "legacy", token := some tok }

/-- The login request a fetcher issues. -/
def loginEv (f : ZabbixGraphFetcher) : Ev :=
  Ev.loginPost (f.base_url ++ "/api_jsonrpc.php") (loginPayload f.user f.password)

/-- The chart request a fetcher in state `f` issues for query `q`. -/
def chartEv (f : ZabbixGraphFetcher) (q : GraphQuery) : Ev :=
  Ev.chartGet (f.base_url ++ "/chart2.php") (chartParams f q) f.headers

/-- The text-send POST event an invocation with these arguments issues. -/
def textEv (args : Args) : Ev :=
  Ev.wpost "/send" ((mkClient args.api_base_url args.api_token).base_url ++ "/send")
    ((mkClient args.api_base_url args.api_token).headers ++ [("Content-Type", "application/json")])
    (sendTextPayload args.phone args.message args.subject)

/-- The media-send POST event an invocation with these arguments issues
for an encoded media object. -/
def mediaEv (args : Args) (media : JFlat) : Ev :=
  Ev.wpost "/send-media" ((mkClient args.api_base_url args.api_token).base_url ++ "/send-media")
    ((mkClient args.api_base_url args.api_token).headers ++ [("Content-Type", "application/json")])
    (sendMediaPayload args.phone media (some (pyOrStr args.caption args.message)))

/-- A successful messaging-API response. -/
def exRespOk : HttpResp := { status := 200, text := "ok", jsonBody := some (.obj []) }

/-- A 404 messaging-API response. -/
def exResp404 : HttpResp := { status := 404, text := "not found", jsonBody := none }

/-- A successful chart response with no Content-Type header. -/
def exChart : ChartResp := { status := 200, text := "", content := [1, 2, 3], contentType := none }

/-- A Zabbix world where login succeeds with token T and the chart
download succeeds. -/
def exZWorldLegacy : ZWorld :=
  { loginBody := some { error := none, result := some "T" }, chart := exChart }

/-- A Zabbix world whose chart endpoint answers 500. -/
def exZWorldChart500 : ZWorld :=
  { loginBody := some { error := none, result := some "T" },
    chart := { status := 500, text := "ise", content := [], contentType := none } }

/-- A world where every server call succeeds. -/
def exWorldOk : World := { sendResp := exRespOk, mediaResp := exRespOk, zbx := exZWorldLegacy }

/-- A world where the text-send POST answers 404. -/
def exWorld404 : World := { sendResp := exResp404, mediaResp := exRespOk, zbx := exZWorldLegacy }

/-- Baseline invocation arguments: phone and message only, argparse
defaults everywhere else. -/
def exArgs : Args :=
  { phone := "+5511999999999", message := "CPU high", subject := none, caption := none,
    api_base_url := "http://localhost:3000", api_token := none, graph_id := none,
    zabbix_url := none, zabbix_token := none, zabbix_user := none, zabbix_password := none,
    period := 3600, width := 900, height := 200, stime := none,
    graph_filename := "zabbix-graph.png" }

/-- Arguments with a graph id but no --zabbix-url. -/
def exArgsNoUrl : Args := { exArgs with graph_id := some "42" }

/-- Arguments for the bearer-token graph scenario. -/
def exArgsBearer : Args :=
  { exArgs with
    graph_id := some "42", zabbix_url := some "https://zbx.example",
    zabbix_token := some "abc" }

/-- Arguments with a graph id and URL but only a username (no password,
no token). -/
def exArgsNoCred : Args :=
  { exArgs with
    graph_id := some "42", zabbix_url := some "https://zbx.example",
    zabbix_user := some "u" }

/-- A sample chart query. -/
def exQuery : GraphQuery :=
  { graph_id := "42", period := 3600, width := 900, height := 200, stime := none }

/-- A fetcher already prepared in bearer mode. -/
def exFetcher : ZabbixGraphFetcher :=
  { base_url := "https://zbx.example", auth_type := some "bearer", token := some "abc",
    user := none, password := none, headers := [("Authorization", "Bearer abc")] }

/-! ### Theorems -/

theorem decodeChar_encodeChar : ∀ n < 64, decodeChar (encodeChar n) = some n := by
  decide

theorem encodeChar_ne_pad : ∀ n < 64, encodeChar n ≠ '=' := by
  decide

theorem b64DecChunk_enc (a b c : Nat) (ha : a < 256) (hb : b < 256) (hc : c < 256) :
    b64DecChunk (encodeChar (a / 4)) (encodeChar (a % 4 * 16 + b / 16))
      (encodeChar (b % 16 * 4 + c / 64)) (encodeChar (c % 64)) = some [a, b, c] := by
  have h1 : decodeChar (encodeChar (a / 4)) = some (a / 4) :=
    decodeChar_encodeChar _ (by omega)
  have h2 : decodeChar (encodeChar (a % 4 * 16 + b / 16)) = some (a % 4 * 16 + b / 16) :=
    decodeChar_encodeChar _ (by omega)
  have h3 : decodeChar (encodeChar (b % 16 * 4 + c / 64)) = some (b % 16 * 4 + c / 64) :=
    decodeChar_encodeChar _ (by omega)
  have h4 : decodeChar (encodeChar (c % 64)) = some (c % 64) :=
    decodeChar_encodeChar _ (by omega)
  simp only [b64DecChunk, h1, h2, h3, h4, Option.some.injEq, List.cons.injEq, and_true]
  refine ⟨by omega, by omega, by omega⟩

theorem b64_roundtrip (bs : List Nat) :
    (∀ x ∈ bs, x < 256) → b64Decode (b64Encode bs) = some bs := by
  induction bs using b64Encode.induct with
  | case1 a b c rest ih =>
    intro h
    have ha : a < 256 := h a (by simp)
    have hb : b < 256 := h b (by simp)
    have hc : c < 256 := h c (by simp)
    have ih2 := ih (fun x hx => h x (by simp [hx]))
    have hne : encodeChar (c % 64) ≠ '=' := encodeChar_ne_pad _ (by omega)
    simp only [b64Encode, b64Decode, if_neg hne, b64DecChunk_enc a b c ha hb hc, ih2]
    rfl
  | case2 a b =>
    intro h
    have ha : a < 256 := h a (by simp)
    have hb : b < 256 := h b (by simp)
    have hne : encodeChar (b % 16 * 4) ≠ '=' := encodeChar_ne_pad _ (by omega)
    have h1 : decodeChar (encodeChar (a / 4)) = some (a / 4) :=
      decodeChar_encodeChar _ (by omega)
    have h2 : decodeChar (encodeChar (a % 4 * 16 + b / 16)) = some (a % 4 * 16 + b / 16) :=
      decodeChar_encodeChar _ (by omega)
    have h3 : decodeChar (encodeChar (b % 16 * 4)) = some (b % 16 * 4) :=
      decodeChar_encodeChar _ (by omega)
    simp only [b64Encode, b64Decode, if_pos rfl, if_neg hne, ne_eq, not_true_eq_false,
      if_false, ite_true, h1, h2, h3, Option.some.injEq, List.cons.injEq, and_true]
    omega
  | case3 a =>
    intro h
    have ha : a < 256 := h a (by simp)
    have h1 : decodeChar (encodeChar (a / 4)) = some (a / 4) :=
      decodeChar_encodeChar _ (by omega)
    have h2 : decodeChar (encodeChar (a % 4 * 16)) = some (a % 4 * 16) :=
      decodeChar_encodeChar _ (by omega)
    simp only [b64Encode, b64Decode, if_pos rfl, ne_eq, not_true_eq_false, if_false,
      ite_true, h1, h2, Option.some.injEq, List.cons.injEq, and_true]
    omega
  | case4 =>
    intro _
    rfl

theorem prepare_bearer (f : ZabbixGraphFetcher) (w : ZWorld)
    (h : pyTruthy f.token = true) :
    f.prepare w = (.ok (), bearerSt f, []) := by
  simp [ZabbixGraphFetcher.prepare, bearerSt, h]

theorem prepare_config (f : ZabbixGraphFetcher) (w : ZWorld)
    (ht : pyTruthy f.token = false)
    (hup : (pyTruthy f.user && pyTruthy f.password) = false) :
    f.prepare w = (.error (.configError configMsg), f, []) := by
  simp [ZabbixGraphFetcher.prepare, ht, hup]

theorem prepare_legacy (f : ZabbixGraphFetcher) (w : ZWorld) (tok : String)
    (ht : pyTruthy f.token = false) (hu : pyTruthy f.user = true)
    (hp : pyTruthy f.password = true)
    (hw : w.loginBody = some { error := none, result := some tok }) :
    f.prepare w = (.ok (), legacySt f tok, [loginEv f]) := by
  simp [ZabbixGraphFetcher.prepare, ZabbixGraphFetcher.api_login, legacySt, loginEv,
    ht, hu, hp, hw]

theorem fetch_graph_prepared (f : ZabbixGraphFetcher) (w : ZWorld) (q : GraphQuery)
    (h : pyTruthy f.auth_type = true) :
    f.fetch_graph w q = (chartOutcome w, f, [chartEv f q]) := by
  simp [ZabbixGraphFetcher.fetch_graph, chartEv, h]

theorem fetch_graph_unprepared (f : ZabbixGraphFetcher) (w : ZWorld) (q : GraphQuery)
    (h : pyTruthy f.auth_type = false) :
    f.fetch_graph w q =
      match f.prepare w with
      | (.error e, f1, evs1) => (.error e, f1, evs1)
      | (.ok _, f1, evs1) => (chartOutcome w, f1, evs1 ++ [chartEv f1 q]) := by
  simp only [ZabbixGraphFetcher.fetch_graph, chartEv, h, Bool.false_eq_true, if_false]

theorem bearerSt_prepared (f : ZabbixGraphFetcher) :
    pyTruthy (bearerSt f).auth_type = true := by
  simp [bearerSt, pyTruthy]

theorem legacySt_prepared (f : ZabbixGraphFetcher) (tok : String) :
    pyTruthy (legacySt f tok).auth_type = true := by
  simp [legacySt, pyTruthy]

theorem fetchMany_prepared (w : ZWorld) (f : ZabbixGraphFetcher)
    (h : pyTruthy f.auth_type = true) (qs : List GraphQuery) :
    fetchMany w f qs = (f, qs.map (fun q => chartEv f q)) := by
  induction qs with
  | nil => simp [fetchMany]
  | cons q qs ih => simp [fetchMany, fetch_graph_prepared f w q h, ih]

theorem postResult_ok_iff (ep : String) (resp : HttpResp) :
    postOk resp = true ↔ ∃ j, postResult ep resp = Except.ok j := by
  unfold postOk postResult
  by_cases h : resp.status ≥ 400
  · simp [h]
  · cases resp.jsonBody <;> simp [h]

theorem postResult_err_iff (ep : String) (resp : HttpResp) :
    postOk resp = false ↔ ∃ e, postResult ep resp = Except.error e := by
  unfold postOk postResult
  by_cases h : resp.status ≥ 400
  · simp [h]
  · cases resp.jsonBody <;> simp [h]

theorem main_text_error (args : Args) (w : World) (e : PyErr)
    (h : postResult "/send" w.sendResp = .error e) :
    main args w = (.exit 2, [textEv args]) := by
  simp [main, WhatsAppAPIClient.send_text, WhatsAppAPIClient.post, textEv, h]

theorem main_nograph (args : Args) (w : World) (j : JVal)
    (h : postResult "/send" w.sendResp = .ok j)
    (hg : pyTruthy args.graph_id = false) :
    main args w = (.exit 0, [textEv args]) := by
  simp [main, WhatsAppAPIClient.send_text, WhatsAppAPIClient.post, textEv, h, hg]

theorem main_usage (args : Args) (w : World) (j : JVal)
    (h : postResult "/send" w.sendResp = .ok j)
    (hg : pyTruthy args.graph_id = true)
    (hz : pyTruthy args.zabbix_url = false) :
    main args w = (.usageError usageMsg, [textEv args]) := by
  simp [main, WhatsAppAPIClient.send_text, WhatsAppAPIClient.post, textEv, h, hg, hz]

theorem main_fetch_error (args : Args) (w : World) (j : JVal) (e : PyErr)
    (f1 : ZabbixGraphFetcher) (evsG : List Ev)
    (h : postResult "/send" w.sendResp = .ok j)
    (hg : pyTruthy args.graph_id = true)
    (hz : pyTruthy args.zabbix_url = true)
    (hf : (mkFetcherOf args).fetch_graph w.zbx (queryOf args) = (.error e, f1, evsG)) :
    main args w = (.exit 3, textEv args :: evsG) := by
  simp [main, WhatsAppAPIClient.send_text, WhatsAppAPIClient.post, textEv, h, hg, hz, hf]

theorem main_media_sent (args : Args) (w : World) (j : JVal) (d : List Nat) (mt : String)
    (f1 : ZabbixGraphFetcher) (evsG : List Ev)
    (h : postResult "/send" w.sendResp = .ok j)
    (hg : pyTruthy args.graph_id = true)
    (hz : pyTruthy args.zabbix_url = true)
    (hf : (mkFetcherOf args).fetch_graph w.zbx (queryOf args) = (.ok (d, mt), f1, evsG)) :
    main args w =
      ((if postOk w.mediaResp then Outcome.exit 0 else Outcome.exit 3),
        textEv args ::
          (evsG ++ [mediaEv args (encode_media d mt args.graph_filename)])) := by
  by_cases hm : postOk w.mediaResp = true
  · obtain ⟨j2, hj2⟩ := (postResult_ok_iff "/send-media" w.mediaResp).mp hm
    simp [main, WhatsAppAPIClient.send_text, WhatsAppAPIClient.send_media,
      WhatsAppAPIClient.post, textEv, mediaEv, h, hg, hz, hf, hj2, hm]
  · rw [Bool.not_eq_true] at hm
    obtain ⟨e2, he2⟩ := (postResult_err_iff "/send-media" w.mediaResp).mp hm
    simp [main, WhatsAppAPIClient.send_text, WhatsAppAPIClient.send_media,
      WhatsAppAPIClient.post, textEv, mediaEv, h, hg, hz, hf, he2, hm]

/-- Claim C1, as frozen, is false on the code: with --graph-id supplied
and --zabbix-url absent, the text-send POST is issued first and the
argument-validation failure (parser.error) only happens afterwards.
This counterexample exhibits a run that ends in the usage error with a
network call (the text-send POST) already in its trace. -/
theorem C1_counterexample :
    (main exArgsNoUrl exWorldOk).1 = Outcome.usageError usageMsg ∧
    (main exArgsNoUrl exWorldOk).2 = [textEv exArgsNoUrl] ∧
    (textEv exArgsNoUrl).isTextPost = true := by
  decide

/-- Claim C1 amended: when --graph-id is supplied without --zabbix-url,
no graph-related network call (login, chart GET, or media POST) ever
occurs, and when the text send succeeds the program fails argument
validation via parser.error — but this happens after the text-send POST,
not before it. -/
theorem C1_validation_before_graph_calls (args : Args) (w : World)
    (hg : pyTruthy args.graph_id = true) (hz : pyTruthy args.zabbix_url = false) :
    ((main args w).2.all (fun e => !e.isGraphRelated)) = true ∧
    (postOk w.sendResp = true → (main args w).1 = Outcome.usageError usageMsg) := by
  by_cases h : postOk w.sendResp = true
  · obtain ⟨j, hj⟩ := (postResult_ok_iff "/send" w.sendResp).mp h
    rw [main_usage args w j hj hg hz]
    exact ⟨rfl, fun _ => rfl⟩
  · rw [Bool.not_eq_true] at h
    obtain ⟨e, he⟩ := (postResult_err_iff "/send" w.sendResp).mp h
    rw [main_text_error args w e he]
    refine ⟨rfl, fun hok => ?_⟩
    rw [h] at hok
    exact absurd hok (by simp)

/-- Witness for the amended C1 at a concrete invocation. -/
theorem C1_witness :
    ((main exArgsNoUrl exWorldOk).2.all (fun e => !e.isGraphRelated)) = true ∧
    (postOk exWorldOk.sendResp = true → (main exArgsNoUrl exWorldOk).1 = Outcome.usageError usageMsg) :=
  C1_validation_before_graph_calls exArgsNoUrl exWorldOk (by decide) (by decide)

/-- Claim C3: in every invocation the first network event is the
text-send POST (so a media send never precedes it), and when the
text-send POST answers 404 or 500 the program exits with status 2 and
its trace holds no graph-related call at all. -/
theorem C3_text_before_media (args : Args) (w : World) :
    (∃ e, (main args w).2.head? = some e ∧ e.isTextPost = true) ∧
    (w.sendResp.status = 404 ∨ w.sendResp.status = 500 →
      (main args w).1 = Outcome.exit 2 ∧
      ((main args w).2.all (fun e => !e.isGraphRelated)) = true) := by
  constructor
  · by_cases h : postOk w.sendResp = true
    · obtain ⟨j, hj⟩ := (postResult_ok_iff "/send" w.sendResp).mp h
      by_cases hg : pyTruthy args.graph_id = true
      · by_cases hz : pyTruthy args.zabbix_url = true
        · rcases hf : (mkFetcherOf args).fetch_graph w.zbx (queryOf args) with ⟨r, f1, evsG⟩
          cases r with
          | error e =>
            rw [main_fetch_error args w j e f1 evsG hj hg hz hf]
            exact ⟨textEv args, rfl, rfl⟩
          | ok v =>
            rcases v with ⟨d, mt⟩
            rw [main_media_sent args w j d mt f1 evsG hj hg hz hf]
            exact ⟨textEv args, rfl, rfl⟩
        · rw [Bool.not_eq_true] at hz
          rw [main_usage args w j hj hg hz]
          exact ⟨textEv args, rfl, rfl⟩
      · rw [Bool.not_eq_true] at hg
        rw [main_nograph args w j hj hg]
        exact ⟨textEv args, rfl, rfl⟩
    · rw [Bool.not_eq_true] at h
      obtain ⟨e, he⟩ := (postResult_err_iff "/send" w.sendResp).mp h
      rw [main_text_error args w e he]
      exact ⟨textEv args, rfl, rfl⟩
  · intro h45
    have hge : w.sendResp.status ≥ 400 := by rcases h45 with h | h <;> omega
    have he : postResult "/send" w.sendResp =
        .error (.httpError "/send" w.sendResp.status (strTake w.sendResp.text 200)) := by
      simp [postResult, hge]
    rw [main_text_error args w _ he]
    exact ⟨rfl, rfl⟩

/-- Witness for C3 at a concrete invocation whose text POST answers 404. -/
theorem C3_witness :
    (main exArgsBearer exWorld404).1 = Outcome.exit 2 ∧
    ((main exArgsBearer exWorld404).2.all (fun e => !e.isGraphRelated)) = true :=
  (C3_text_before_media exArgsBearer exWorld404).2 (Or.inl rfl)

/-- Claim C4, as frozen, is false on the code in one point: the process
exit status is 2 not only when the text-send stage fails but also when
argument validation fails (parser.error exits with status 2).  This run
has exit status 2 although its text-send POST succeeded. -/
theorem C4_counterexample :
    Outcome.exitCode (main exArgsNoUrl exWorldOk).1 = 2 ∧
    postOk exWorldOk.sendResp = true := by
  decide

/-- Claim C4 amended: main returns 0 exactly on overall success, 2
exactly when the text-send stage fails, and 3 exactly when the graph
stage (fetch, encode or media send) fails; the process exit status is 2
either when the text-send stage fails or when argument validation fails
after a successful text send (argparse convention); and on exit 3 the
trace still holds the already-issued text-send POST. -/
theorem C4_exit_codes (args : Args) (w : World) :
    ((main args w).1 = Outcome.exit 0 ↔
      postOk w.sendResp = true ∧
        (pyTruthy args.graph_id = true →
          pyTruthy args.zabbix_url = true ∧ graphStageOk args w = true)) ∧
    ((main args w).1 = Outcome.exit 2 ↔ postOk w.sendResp = false) ∧
    ((main args w).1 = Outcome.exit 3 ↔
      postOk w.sendResp = true ∧ pyTruthy args.graph_id = true ∧
        pyTruthy args.zabbix_url = true ∧ graphStageOk args w = false) ∧
    (Outcome.exitCode (main args w).1 = 2 ↔
      (postOk w.sendResp = false ∨
        (postOk w.sendResp = true ∧ pyTruthy args.graph_id = true ∧
          pyTruthy args.zabbix_url = false))) ∧
    ((main args w).1 = Outcome.exit 3 → ∃ e ∈ (main args w).2, e.isTextPost = true) := by
  by_cases h : postOk w.sendResp = true
  · obtain ⟨j, hj⟩ := (postResult_ok_iff "/send" w.sendResp).mp h
    by_cases hg : pyTruthy args.graph_id = true
    · by_cases hz : pyTruthy args.zabbix_url = true
      · rcases hf : (mkFetcherOf args).fetch_graph w.zbx (queryOf args) with ⟨r, f1, evsG⟩
        cases r with
        | error e =>
          have hgs : graphStageOk args w = false := by simp [graphStageOk, hf]
          rw [main_fetch_error args w j e f1 evsG hj hg hz hf]
          refine ⟨?_, ?_, ?_, ?_, ?_⟩
          · simp [h, hg, hz, hgs]
          · simp [h]
          · simp [h, hg, hz, hgs]
          · simp [Outcome.exitCode, h, hz]
          · intro _
            exact ⟨textEv args, by simp, rfl⟩
        | ok v =>
          rcases v with ⟨d, mt⟩
          have hgs : graphStageOk args w = postOk w.mediaResp := by simp [graphStageOk, hf]
          rw [main_media_sent args w j d mt f1 evsG hj hg hz hf]
          by_cases hm : postOk w.mediaResp = true
          · rw [hm] at hgs
            refine ⟨?_, ?_, ?_, ?_, ?_⟩
            · simp [h, hg, hz, hgs, hm]
            · simp [h, hm]
            · simp [hgs, hm]
            · simp [Outcome.exitCode, h, hz, hm]
            · intro h3
              simp [hm] at h3
          · rw [Bool.not_eq_true] at hm
            rw [hm] at hgs
            refine ⟨?_, ?_, ?_, ?_, ?_⟩
            · simp [h, hg, hz, hgs, hm]
            · simp [h, hm]
            · simp [h, hg, hz, hgs, hm]
            · simp [Outcome.exitCode, h, hz, hm]
            · intro _
              exact ⟨textEv args, by simp, rfl⟩
      · rw [Bool.not_eq_true] at hz
        rw [main_usage args w j hj hg hz]
        refine ⟨?_, ?_, ?_, ?_, ?_⟩
        · simp [hz, hg]
        · simp [h]
        · simp [hz]
        · simp [Outcome.exitCode, h, hg, hz]
        · intro h3
          exact absurd h3 (by simp)
    · rw [Bool.not_eq_true] at hg
      rw [main_nograph args w j hj hg]
      refine ⟨?_, ?_, ?_, ?_, ?_⟩
      · simp [h, hg]
      · simp [h]
      · simp [hg]
      · simp [Outcome.exitCode, h, hg]
      · intro h3
        exact absurd h3 (by simp)
  · rw [Bool.not_eq_true] at h
    obtain ⟨e, he⟩ := (postResult_err_iff "/send" w.sendResp).mp h
    rw [main_text_error args w e he]
    refine ⟨?_, ?_, ?_, ?_, ?_⟩
    · simp [h]
    · simp [h]
    · simp [h]
    · simp [Outcome.exitCode, h]
    · intro h3
      exact absurd h3 (by simp)

/-- Witness for the amended C4: concrete runs hitting the 0, 2 and 3
characterisations. -/
theorem C4_witness :
    (main exArgs exWorldOk).1 = Outcome.exit 0 ∧
    (main exArgsBearer exWorld404).1 = Outcome.exit 2 ∧
    (main exArgsNoCred exWorldOk).1 = Outcome.exit 3 :=
  ⟨((C4_exit_codes exArgs exWorldOk).1).mpr (by decide),
   ((C4_exit_codes exArgsBearer exWorld404).2.1).mpr (by decide),
   ((C4_exit_codes exArgsNoCred exWorldOk).2.2.1).mpr (by decide)⟩

/-- Claim C10: with --graph-id and --zabbix-url supplied but neither a
token nor a complete user/password pair, the configuration error arises
inside the graph stage — the fetch fails with the RuntimeError of
prepare — after the text message was already sent, and the process exits
with status 3; the trace holds exactly the text-send POST. -/
theorem C10_missing_credentials (args : Args) (w : World)
    (hg : pyTruthy args.graph_id = true) (hz : pyTruthy args.zabbix_url = true)
    (ht : pyTruthy args.zabbix_token = false)
    (hup : (pyTruthy args.zabbix_user && pyTruthy args.zabbix_password) = false)
    (hok : postOk w.sendResp = true) :
    (main args w).1 = Outcome.exit 3 ∧
    ((mkFetcherOf args).fetch_graph w.zbx (queryOf args)).1 =
      Except.error (PyErr.configError configMsg) ∧
    (main args w).2 = [textEv args] := by
  have hna : pyTruthy (mkFetcherOf args).auth_type = false := rfl
  have hf : (mkFetcherOf args).fetch_graph w.zbx (queryOf args) =
      (.error (.configError configMsg), mkFetcherOf args, []) := by
    rw [fetch_graph_unprepared _ _ _ hna, prepare_config _ _ ht hup]
  obtain ⟨j, hj⟩ := (postResult_ok_iff "/send" w.sendResp).mp hok
  rw [main_fetch_error args w j _ _ _ hj hg hz hf]
  exact ⟨rfl, by rw [hf], rfl⟩

/-- Witness for C10: only a username is supplied. -/
theorem C10_witness :
    (main exArgsNoCred exWorldOk).1 = Outcome.exit 3 ∧
    ((mkFetcherOf exArgsNoCred).fetch_graph exWorldOk.zbx (queryOf exArgsNoCred)).1 =
      Except.error (PyErr.configError configMsg) ∧
    (main exArgsNoCred exWorldOk).2 = [textEv exArgsNoCred] :=
  C10_missing_credentials exArgsNoCred exWorldOk (by decide) (by decide) (by decide)
    (by decide) (by decide)

/-- Claim C5: the three HTTP operations fail with a transport error
(status and a body excerpt of at most 200 characters) exactly when the
response status is at least 400; the POST helper underlies send_text and
send_media literally. -/
theorem C5_transport_errors :
    (∀ (ep : String) (resp : HttpResp),
      ((∃ st ex, postResult ep resp = .error (.httpError ep st ex)) ↔ resp.status ≥ 400) ∧
      (resp.status ≥ 400 →
        postResult ep resp = .error (.httpError ep resp.status (strTake resp.text 200))) ∧
      (strTake resp.text 200).length ≤ 200 ∧
      (∀ (c : WhatsAppAPIClient) (ph m : String) (s : Option String),
        (c.send_text ph m s resp).1 = postResult "/send" resp) ∧
      (∀ (c : WhatsAppAPIClient) (ph : String) (md : JFlat) (cap : Option String),
        (c.send_media ph md cap resp).1 = postResult "/send-media" resp)) ∧
    (∀ (f : ZabbixGraphFetcher) (w : ZWorld) (q : GraphQuery),
      pyTruthy f.auth_type = true →
      (((∃ st ex, (f.fetch_graph w q).1 = .error (.chartHttpError st ex)) ↔
          w.chart.status ≥ 400) ∧
       (w.chart.status ≥ 400 →
         (f.fetch_graph w q).1 =
           .error (.chartHttpError w.chart.status (strTake w.chart.text 200))) ∧
       (strTake w.chart.text 200).length ≤ 200)) := by
  have hlen : ∀ (s : String) (n : Nat), (strTake s n).length ≤ n := by
    intro s n
    show (s.data.take n).length ≤ n
    simp [List.length_take]
  constructor
  · intro ep resp
    refine ⟨⟨?_, ?_⟩, ?_, hlen resp.text 200, fun c ph m s => rfl, fun c ph md cap => rfl⟩
    · rintro ⟨st, ex, hpost⟩
      by_cases h : resp.status ≥ 400
      · exact h
      · cases hjb : resp.jsonBody <;> simp [postResult, h, hjb] at hpost
    · intro h
      exact ⟨resp.status, strTake resp.text 200, by simp [postResult, h]⟩
    · intro h
      simp [postResult, h]
  · intro f w q hprep
    rw [fetch_graph_prepared f w q hprep]
    refine ⟨⟨?_, ?_⟩, ?_, hlen w.chart.text 200⟩
    · rintro ⟨st, ex, hchart⟩
      by_cases h : w.chart.status ≥ 400
      · exact h
      · simp [chartOutcome, h] at hchart
    · intro h
      exact ⟨w.chart.status, strTake w.chart.text 200, by simp [chartOutcome, h]⟩
    · intro h
      simp [chartOutcome, h]

/-- Witness for C5: a 404 POST response and a 500 chart response. -/
theorem C5_witness :
    postResult "/send" exResp404 =
      Except.error (PyErr.httpError "/send" exResp404.status (strTake exResp404.text 200)) ∧
    (exFetcher.fetch_graph exZWorldChart500 exQuery).1 =
      Except.error (PyErr.chartHttpError exZWorldChart500.chart.status
        (strTake exZWorldChart500.chart.text 200)) :=
  ⟨(C5_transport_errors.1 "/send" exResp404).2.1 (by decide),
   (C5_transport_errors.2 exFetcher exZWorldChart500 exQuery (by decide)).2.1 (by decide)⟩

/-- Either the fetch produces the chart outcome, or it fails during
preparation. -/
theorem fetch_graph_fst (f : ZabbixGraphFetcher) (w : ZWorld) (q : GraphQuery) :
    (f.fetch_graph w q).1 = chartOutcome w ∨
    ∃ e, (f.fetch_graph w q).1 = Except.error e := by
  by_cases h : pyTruthy f.auth_type = true
  · rw [fetch_graph_prepared f w q h]
    exact Or.inl rfl
  · rw [Bool.not_eq_true] at h
    rw [fetch_graph_unprepared f w q h]
    rcases hp : f.prepare w with ⟨res, f1, evs1⟩
    cases res with
    | error e => exact Or.inr ⟨e, rfl⟩
    | ok u => exact Or.inl rfl

/-- Claim C6: every successful fetch_graph call returns exactly the raw
response bytes and the declared content type, which defaults to
image/png when the server omits the Content-Type header. -/
theorem C6_fetch_returns_raw (f : ZabbixGraphFetcher) (w : ZWorld) (q : GraphQuery)
    (bytes : List Nat) (ct : String) (f1 : ZabbixGraphFetcher) (evs : List Ev)
    (h : f.fetch_graph w q = (.ok (bytes, ct), f1, evs)) :
    bytes = w.chart.content ∧ ct = w.chart.contentType.getD "image/png" ∧
    (w.chart.contentType = none → ct = "image/png") := by
  have h1 : (f.fetch_graph w q).1 = .ok (bytes, ct) := by rw [h]
  rcases fetch_graph_fst f w q with hc | ⟨e, he⟩
  · rw [h1] at hc
    by_cases hs : w.chart.status ≥ 400
    · simp [chartOutcome, hs] at hc
    · simp only [chartOutcome, hs, if_false, if_neg hs] at hc
      obtain ⟨hb, hct⟩ := by
        have := hc.symm
        simp only [Except.ok.injEq, Prod.mk.injEq] at this
        exact this
      refine ⟨hb.symm, hct.symm, fun hn => ?_⟩
      rw [← hct, hn]
      rfl
  · rw [h1] at he
    exact absurd he (by simp)

/-- Witness for C6: a prepared fetcher against a chart response with no
Content-Type header. -/
theorem C6_witness :
    [1, 2, 3] = exZWorldLegacy.chart.content ∧
    "image/png" = exZWorldLegacy.chart.contentType.getD "image/png" ∧
    (exZWorldLegacy.chart.contentType = none → "image/png" = "image/png") :=
  C6_fetch_returns_raw exFetcher exZWorldLegacy exQuery [1, 2, 3] "image/png" exFetcher
    [chartEv exFetcher exQuery] (by rfl)

/-- Claim C7: decoding the base64 data field of an encoded media object
yields the original bytes, and the mimetype and filename are copied
unchanged. -/
theorem C7_media_roundtrip (data : List Nat) (mt fn : String)
    (h : ∀ x ∈ data, x < 256) :
    (∃ s, (encode_media data mt fn).lookup "data" = some (JPrim.str s) ∧
      b64Decode s.data = some data) ∧
    (encode_media data mt fn).lookup "mimetype" = some (JPrim.str mt) ∧
    (encode_media data mt fn).lookup "filename" = some (JPrim.str fn) := by
  refine ⟨⟨String.mk (b64Encode data), ?_, ?_⟩, ?_, ?_⟩
  · simp [encode_media, List.lookup]
  · exact b64_roundtrip data h
  · simp [encode_media, List.lookup]
  · simp [encode_media, List.lookup]

/-- Witness for C7 on the bytes 0, 77, 255 (base64 AE3/). -/
theorem C7_witness :
    (encode_media [0, 77, 255] "image/png" "g.png").lookup "mimetype" =
      some (JPrim.str "image/png") ∧
    (encode_media [0, 77, 255] "image/png" "g.png").lookup "filename" =
      some (JPrim.str "g.png") ∧
    b64Decode "AE3/".data = some [0, 77, 255] :=
  ⟨(C7_media_roundtrip [0, 77, 255] "image/png" "g.png" (by decide)).2.1,
   (C7_media_roundtrip [0, 77, 255] "image/png" "g.png" (by decide)).2.2,
   by decide⟩

theorem fetch_graph_bearer (f : ZabbixGraphFetcher) (w : ZWorld) (q : GraphQuery)
    (hna : pyTruthy f.auth_type = false) (ht : pyTruthy f.token = true) :
    f.fetch_graph w q = (chartOutcome w, bearerSt f, [chartEv (bearerSt f) q]) := by
  rw [fetch_graph_unprepared f w q hna, prepare_bearer f w ht]
  rfl

theorem fetch_graph_legacy (f : ZabbixGraphFetcher) (w : ZWorld) (q : GraphQuery)
    (tok : String)
    (hna : pyTruthy f.auth_type = false) (ht : pyTruthy f.token = false)
    (hu : pyTruthy f.user = true) (hp : pyTruthy f.password = true)
    (hw : w.loginBody = some { error := none, result := some tok }) :
    f.fetch_graph w q =
      (chartOutcome w, legacySt f tok, [loginEv f, chartEv (legacySt f tok) q]) := by
  rw [fetch_graph_unprepared f w q hna, prepare_legacy f w tok ht hu hp hw]
  rfl

theorem countP_login_map_chart (b : ZabbixGraphFetcher) (l : List GraphQuery) :
    (l.map (fun q => chartEv b q)).countP Ev.isLogin = 0 := by
  induction l with
  | nil => rfl
  | cons q l ih => simp [List.countP_cons, chartEv, Ev.isLogin, ih]

theorem chartParams_legacy_auth (f : ZabbixGraphFetcher) (tok : String) (q : GraphQuery)
    (htok : tok ≠ "") :
    ("auth", JPrim.str tok) ∈ chartParams (legacySt f tok) q := by
  have hc : ((legacySt f tok).auth_type = some "legacy" && pyTruthy (legacySt f tok).token)
      = true := by
    simp [legacySt, pyTruthy, htok]
  simp only [chartParams, hc, if_true]
  refine List.mem_append.mpr (Or.inr ?_)
  simp [legacySt]

/-- Claim C2: with a static (non-empty) token the fetcher never issues a
login call and every chart request carries the Authorization Bearer
header; with only username and password, exactly one (successful) login
call opens the trace, before the first chart GET, and every chart
request of the same instance carries the obtained session token as the
auth query parameter — not as a header — without logging in again. -/
theorem C2_auth_modes :
    (∀ (burl t : String) (user pw : Option String) (w : ZWorld) (qs : List GraphQuery),
      t ≠ "" →
      (∀ e ∈ (fetchMany w (mkFetcher burl (some t) user pw) qs).2, e.isLogin = false) ∧
      (∀ url prms hd,
        Ev.chartGet url prms hd ∈ (fetchMany w (mkFetcher burl (some t) user pw) qs).2 →
        ("Authorization", "Bearer " ++ t) ∈ hd)) ∧
    (∀ (burl u p tok : String) (w : ZWorld) (qs : List GraphQuery),
      u ≠ "" → p ≠ "" → tok ≠ "" →
      w.loginBody = some { error := none, result := some tok } → qs ≠ [] →
      ((fetchMany w (mkFetcher burl none (some u) (some p)) qs).2.countP Ev.isLogin = 1 ∧
       (fetchMany w (mkFetcher burl none (some u) (some p)) qs).2.head? =
         some (loginEv (mkFetcher burl none (some u) (some p))) ∧
       (∀ url prms hd,
         Ev.chartGet url prms hd ∈ (fetchMany w (mkFetcher burl none (some u) (some p)) qs).2 →
         ("auth", JPrim.str tok) ∈ prms ∧ ∀ v, ("Authorization", v) ∉ hd))) := by
  constructor
  · intro burl t user pw w qs ht
    cases qs with
    | nil =>
      exact ⟨fun e he => absurd he (by simp [fetchMany]), fun url prms hd hm =>
        absurd hm (by simp [fetchMany])⟩
    | cons q qs =>
      have hna : pyTruthy (mkFetcher burl (some t) user pw).auth_type = false := rfl
      have htt : pyTruthy (mkFetcher burl (some t) user pw).token = true := by
        simp [mkFetcher, pyTruthy, ht]
      have hb := fetch_graph_bearer (mkFetcher burl (some t) user pw) w q hna htt
      have hrest := fetchMany_prepared w (bearerSt (mkFetcher burl (some t) user pw))
        (bearerSt_prepared _) qs
      have hevs : (fetchMany w (mkFetcher burl (some t) user pw) (q :: qs)).2 =
          chartEv (bearerSt (mkFetcher burl (some t) user pw)) q ::
            qs.map (fun q2 => chartEv (bearerSt (mkFetcher burl (some t) user pw)) q2) := by
        simp [fetchMany, hb, hrest]
      rw [hevs]
      constructor
      · intro e he
        rcases List.mem_cons.mp he with rfl | hm
        · rfl
        · obtain ⟨q2, _, rfl⟩ := List.mem_map.mp hm
          rfl
      · intro url prms hd hm
        have hmem : ("Authorization", "Bearer " ++ t) ∈
            (bearerSt (mkFetcher burl (some t) user pw)).headers := by
          simp [bearerSt, mkFetcher]
        rcases List.mem_cons.mp hm with heq | hm2
        · obtain ⟨-, -, rfl⟩ : url = _ ∧ prms = _ ∧ hd = _ := by
            simpa [chartEv, eq_comm] using heq
          exact hmem
        · obtain ⟨q2, -, heq⟩ := List.mem_map.mp hm2
          obtain ⟨-, -, rfl⟩ : url = _ ∧ prms = _ ∧ hd = _ := by
            simpa [chartEv, eq_comm] using heq
          exact hmem
  · intro burl u p tok w qs hu hp htok hw hqs
    obtain ⟨q, qs, rfl⟩ := List.exists_cons_of_ne_nil hqs
    have hna : pyTruthy (mkFetcher burl none (some u) (some p)).auth_type = false := rfl
    have hnt : pyTruthy (mkFetcher burl none (some u) (some p)).token = false := rfl
    have huu : pyTruthy (mkFetcher burl none (some u) (some p)).user = true := by
      simp [mkFetcher, pyTruthy, hu]
    have hpp : pyTruthy (mkFetcher burl none (some u) (some p)).password = true := by
      simp [mkFetcher, pyTruthy, hp]
    have hl := fetch_graph_legacy (mkFetcher burl none (some u) (some p)) w q tok
      hna hnt huu hpp hw
    have hrest := fetchMany_prepared w (legacySt (mkFetcher burl none (some u) (some p)) tok)
      (legacySt_prepared _ _) qs
    have hevs : (fetchMany w (mkFetcher burl none (some u) (some p)) (q :: qs)).2 =
        loginEv (mkFetcher burl none (some u) (some p)) ::
          chartEv (legacySt (mkFetcher burl none (some u) (some p)) tok) q ::
            qs.map (fun q2 => chartEv (legacySt (mkFetcher burl none (some u) (some p)) tok) q2) := by
      simp [fetchMany, hl, hrest]
    rw [hevs]
    refine ⟨?_, rfl, ?_⟩
    · simp [List.countP_cons, countP_login_map_chart, chartEv, Ev.isLogin, loginEv]
    · intro url prms hd hm
      have hauth : ("auth", JPrim.str tok) ∈
          chartParams (legacySt (mkFetcher burl none (some u) (some p)) tok) q := by
        exact chartParams_legacy_auth _ tok q htok
      rcases List.mem_cons.mp hm with heq | hm2
      · exact absurd heq (by simp [loginEv])
      · rcases List.mem_cons.mp hm2 with heq | hm3
        · obtain ⟨-, rfl, rfl⟩ : url = _ ∧ prms = _ ∧ hd = _ := by
            simpa [chartEv, eq_comm] using heq
          exact ⟨chartParams_legacy_auth _ tok q htok, by simp [legacySt, mkFetcher]⟩
        · obtain ⟨q2, -, heq⟩ := List.mem_map.mp hm3
          obtain ⟨-, rfl, rfl⟩ : url = _ ∧ prms = _ ∧ hd = _ := by
            simpa [chartEv, eq_comm] using heq
          exact ⟨chartParams_legacy_auth _ tok q2 htok, by simp [legacySt, mkFetcher]⟩

/-- Witness for C2 at concrete instances of both authentication modes. -/
theorem C2_witness :
    ((fetchMany exZWorldLegacy (mkFetcher "https://zbx.example" (some "abc") none none)
        [exQuery]).2.countP Ev.isLogin = 0) ∧
    ((fetchMany exZWorldLegacy (mkFetcher "https://zbx.example" none (some "u") (some "p"))
        [exQuery, exQuery]).2.countP Ev.isLogin = 1) ∧
    ((fetchMany exZWorldLegacy (mkFetcher "https://zbx.example" none (some "u") (some "p"))
        [exQuery, exQuery]).2.head? =
      some (loginEv (mkFetcher "https://zbx.example" none (some "u") (some "p")))) := by
  have hA := (C2_auth_modes.1 "https://zbx.example" "abc" none none exZWorldLegacy
    [exQuery] (by decide)).1
  have hB := C2_auth_modes.2 "https://zbx.example" "u" "p" "T" exZWorldLegacy
    [exQuery, exQuery] (by decide) (by decide) (by decide) rfl (by decide)
  refine ⟨?_, hB.1, hB.2.1⟩
  rw [List.countP_eq_zero]
  intro e he
  simp [hA e he]

theorem api_login_events (f : ZabbixGraphFetcher) (w : ZWorld) :
    (f.api_login w).2 = [loginEv f] := by
  cases hwb : w.loginBody with
  | none => simp [ZabbixGraphFetcher.api_login, loginEv, hwb]
  | some body =>
    cases herr : body.error with
    | some e => simp [ZabbixGraphFetcher.api_login, loginEv, hwb, herr]
    | none =>
      cases hres : body.result with
      | some t => simp [ZabbixGraphFetcher.api_login, loginEv, hwb, herr, hres]
      | none => simp [ZabbixGraphFetcher.api_login, loginEv, hwb, herr, hres]

theorem prepare_events (f : ZabbixGraphFetcher) (w : ZWorld) :
    ∀ e ∈ (f.prepare w).2.2, e = loginEv f := by
  intro e he
  by_cases ht : pyTruthy f.token = true
  · rw [prepare_bearer f w ht] at he
    exact absurd he (by simp)
  · rw [Bool.not_eq_true] at ht
    by_cases hup : (pyTruthy f.user && pyTruthy f.password) = true
    · have hev : (f.prepare w).2.2 = (f.api_login w).2 := by
        simp only [ZabbixGraphFetcher.prepare, ht, hup, Bool.false_eq_true, if_false, if_true]
        rcases hl : f.api_login w with ⟨res, evs⟩
        cases res <;> rfl
      rw [hev, api_login_events f w] at he
      simpa using he
    · rw [Bool.not_eq_true] at hup
      rw [prepare_config f w ht hup] at he
      exact absurd he (by simp)

theorem fetch_graph_events (f : ZabbixGraphFetcher) (w : ZWorld) (q : GraphQuery) :
    ∀ e ∈ (f.fetch_graph w q).2.2, e.isLogin = true ∨ e.isChart = true := by
  intro e he
  by_cases h : pyTruthy f.auth_type = true
  · rw [fetch_graph_prepared f w q h] at he
    have := List.mem_singleton.mp he
    subst this
    exact Or.inr rfl
  · rw [Bool.not_eq_true] at h
    rw [fetch_graph_unprepared f w q h] at he
    rcases hp : f.prepare w with ⟨res, f1, evs1⟩
    rw [hp] at he
    cases res with
    | error err =>
      have h1 : e ∈ evs1 := by simpa using he
      have := prepare_events f w e (by rw [hp]; exact h1)
      subst this
      exact Or.inl rfl
    | ok u =>
      have hd2 : e ∈ evs1 ∨ e = chartEv f1 q := by simpa using he
      rcases hd2 with h1 | h2
      · have := prepare_events f w e (by rw [hp]; exact h1)
        subst this
        exact Or.inl rfl
      · subst h2
        exact Or.inr rfl

theorem fetch_graph_no_wpost (f : ZabbixGraphFetcher) (w : ZWorld) (q : GraphQuery)
    (ep url : String) (hd : List (String × String)) (pl : JObj) :
    Ev.wpost ep url hd pl ∉ (f.fetch_graph w q).2.2 := by
  intro hmem
  rcases fetch_graph_events f w q _ hmem with h | h <;> simp [Ev.isLogin, Ev.isChart] at h

theorem pyOrStr_of_falsy (cap : Option String) (msg : String)
    (h : pyTruthy cap = false) : pyOrStr cap msg = msg := by
  cases cap with
  | none => rfl
  | some s =>
    have hs : s = "" := by simpa [pyTruthy] using h
    subst hs
    simp [pyOrStr]

theorem lookup_caption_truthy (ph : String) (media : JFlat) (s : String) (hs : s ≠ "") :
    (sendMediaPayload ph media (some s)).lookup "caption" =
      some (JVal.prim (JPrim.str s)) := by
  simp [sendMediaPayload, pyTruthy, hs, List.lookup]

theorem lookup_caption_empty (ph : String) (media : JFlat) :
    (sendMediaPayload ph media (some "")).lookup "caption" = none := by
  simp [sendMediaPayload, pyTruthy, List.lookup]

/-- Claim C8: whenever the trace of an invocation holds a media-send
POST, the caption field of its payload is the explicit --caption
argument when one was given, the original message body otherwise — and
absent (per the only-if-non-empty payload rule) in the edge case where
both are empty. -/
theorem C8_caption (args : Args) (w : World) (url : String)
    (hd : List (String × String)) (payload : JObj)
    (hmem : Ev.wpost "/send-media" url hd payload ∈ (main args w).2) :
    (∀ c, args.caption = some c → c ≠ "" →
      payload.lookup "caption" = some (JVal.prim (JPrim.str c))) ∧
    (pyTruthy args.caption = false →
      (args.message ≠ "" →
        payload.lookup "caption" = some (JVal.prim (JPrim.str args.message))) ∧
      (args.message = "" → payload.lookup "caption" = none)) := by
  have hne : ∀ u h2 p2, Ev.wpost "/send-media" url hd payload ≠ Ev.wpost "/send" u h2 p2 := by
    intro u h2 p2 hcontra
    have : "/send-media" = "/send" := by injection hcontra
    exact absurd this (by decide)
  have hpl : ∃ d mt, payload =
      sendMediaPayload args.phone (encode_media d mt args.graph_filename)
        (some (pyOrStr args.caption args.message)) := by
    by_cases h : postOk w.sendResp = true
    · obtain ⟨j, hj⟩ := (postResult_ok_iff "/send" w.sendResp).mp h
      by_cases hg : pyTruthy args.graph_id = true
      · by_cases hz : pyTruthy args.zabbix_url = true
        · rcases hf : (mkFetcherOf args).fetch_graph w.zbx (queryOf args) with ⟨r, f1, evsG⟩
          cases r with
          | error e =>
            rw [main_fetch_error args w j e f1 evsG hj hg hz hf] at hmem
            rcases List.mem_cons.mp hmem with heq | hm2
            · exact absurd heq (hne _ _ _)
            · have : evsG = ((mkFetcherOf args).fetch_graph w.zbx (queryOf args)).2.2 := by
                rw [hf]
              rw [this] at hm2
              exact absurd hm2 (fetch_graph_no_wpost _ _ _ _ _ _ _)
          | ok v =>
            rcases v with ⟨d, mt⟩
            rw [main_media_sent args w j d mt f1 evsG hj hg hz hf] at hmem
            rcases List.mem_cons.mp hmem with heq | hm2
            · exact absurd heq (hne _ _ _)
            · rcases List.mem_append.mp hm2 with h1 | h2
              · have : evsG = ((mkFetcherOf args).fetch_graph w.zbx (queryOf args)).2.2 := by
                  rw [hf]
                rw [this] at h1
                exact absurd h1 (fetch_graph_no_wpost _ _ _ _ _ _ _)
              · have heq := List.mem_singleton.mp h2
                simp only [mediaEv, Ev.wpost.injEq] at heq
                exact ⟨d, mt, heq.2.2.2⟩
        · rw [Bool.not_eq_true] at hz
          rw [main_usage args w j hj hg hz] at hmem
          rcases List.mem_cons.mp hmem with heq | hm2
          · exact absurd heq (hne _ _ _)
          · exact absurd hm2 (by simp)
      · rw [Bool.not_eq_true] at hg
        rw [main_nograph args w j hj hg] at hmem
        rcases List.mem_cons.mp hmem with heq | hm2
        · exact absurd heq (hne _ _ _)
        · exact absurd hm2 (by simp)
    · rw [Bool.not_eq_true] at h
      obtain ⟨e, he⟩ := (postResult_err_iff "/send" w.sendResp).mp h
      rw [main_text_error args w e he] at hmem
      rcases List.mem_cons.mp hmem with heq | hm2
      · exact absurd heq (hne _ _ _)
      · exact absurd hm2 (by simp)
  obtain ⟨d, mt, hpayload⟩ := hpl
  rw [hpayload]
  constructor
  · intro c hc hcne
    have hcap : pyOrStr args.caption args.message = c := by
      rw [hc]
      simp [pyOrStr, hcne]
    rw [hcap]
    exact lookup_caption_truthy _ _ c hcne
  · intro hfalsy
    have hcap : pyOrStr args.caption args.message = args.message :=
      pyOrStr_of_falsy args.caption args.message hfalsy
    rw [hcap]
    constructor
    · intro hmne
      exact lookup_caption_truthy _ _ args.message hmne
    · intro hme
      rw [hme]
      exact lookup_caption_empty _ _

/-- Witness for C8: the concrete bearer-mode run whose media payload
carries the message body as caption. -/
theorem C8_witness :
    (sendMediaPayload "+5511999999999"
      (encode_media [1, 2, 3] "image/png" "zabbix-graph.png")
      (some "CPU high")).lookup "caption" =
    some (JVal.prim (JPrim.str "CPU high")) :=
  ((C8_caption exArgsBearer exWorldOk "http://localhost:3000/send-media"
      [("Content-Type", "application/json")]
      (sendMediaPayload "+5511999999999"
        (encode_media [1, 2, 3] "image/png" "zabbix-graph.png")
        (some "CPU high")) (by decide)).2 (by decide)).1 (by decide)

/-- Claim C9: send_text posts a payload holding the destination and
message with the subject field present exactly when the subject is
non-empty; send_media posts the destination and media object with the
caption field present exactly when the caption is non-empty. -/
theorem C9_payload_fields :
    (∀ (ph m : String) (s : Option String) (c : WhatsAppAPIClient) (resp : HttpResp),
      (c.send_text ph m s resp).2 =
        [Ev.wpost "/send" (c.base_url ++ "/send")
          (c.headers ++ [("Content-Type", "application/json")]) (sendTextPayload ph m s)] ∧
      (sendTextPayload ph m s).lookup "phone" = some (JVal.prim (JPrim.str ph)) ∧
      (sendTextPayload ph m s).lookup "message" = some (JVal.prim (JPrim.str m)) ∧
      (sendTextPayload ph m s).lookup "subject" =
        (if pyTruthy s then some (JVal.prim (JPrim.str (s.getD ""))) else none)) ∧
    (∀ (ph : String) (md : JFlat) (cap : Option String) (c : WhatsAppAPIClient)
        (resp : HttpResp),
      (c.send_media ph md cap resp).2 =
        [Ev.wpost "/send-media" (c.base_url ++ "/send-media")
          (c.headers ++ [("Content-Type", "application/json")]) (sendMediaPayload ph md cap)] ∧
      (sendMediaPayload ph md cap).lookup "phone" = some (JVal.prim (JPrim.str ph)) ∧
      (sendMediaPayload ph md cap).lookup "media" = some (JVal.obj md) ∧
      (sendMediaPayload ph md cap).lookup "caption" =
        (if pyTruthy cap then some (JVal.prim (JPrim.str (cap.getD ""))) else none)) := by
  constructor
  · intro ph m s c resp
    refine ⟨rfl, ?_, ?_, ?_⟩
    · by_cases hs : pyTruthy s = true <;> simp [sendTextPayload, hs, List.lookup]
    · by_cases hs : pyTruthy s = true <;> simp [sendTextPayload, hs, List.lookup]
    · by_cases hs : pyTruthy s = true <;> simp [sendTextPayload, hs, List.lookup]
  · intro ph md cap c resp
    refine ⟨rfl, ?_, ?_, ?_⟩
    · by_cases hc : pyTruthy cap = true <;> simp [sendMediaPayload, hc, List.lookup]
    · by_cases hc : pyTruthy cap = true <;> simp [sendMediaPayload, hc, List.lookup]
    · by_cases hc : pyTruthy cap = true <;> simp [sendMediaPayload, hc, List.lookup]

end ZabbixWhatsappSender

